import Mathlib

/-!
Shallow embedding of the session bridge in voice_live_web_server.py:
the WebVoiceLiveSession state and operations, the background listener
(_listen_for_responses), and the SocketIO handlers that manage the
process-wide registry (active_connections).

Downstream frames and client-channel events are modelled as explicit
effect lists; the DownstreamConnection (class VoiceLiveConnection,
imported from voice_live_web.py, whose source is not part of this
development) is modelled from the spec as a handle recording the frames
sent through it, whether it has been closed, and environment flags
saying whether its send and close calls raise.
-/

namespace VoiceLive

/-- Downstream frames the bridge sends, per the JSON `type` discriminator
in voice_live_web_server.py (session.update in start_session,
input_audio_buffer.append in send_audio, response.create in
trigger_response). -/
inductive Frame where
  | sessionUpdate : Frame
  | inputAudioBufferAppend (payload : String) : Frame
  | responseCreate : Frame
deriving DecidableEq, Repr

/-- Client-channel (SocketIO) events emitted to the browser client. -/
inductive ClientEvent where
  | sessionStarted : ClientEvent
  | sessionError (error : String) : ClientEvent
  | transcript (text : String) : ClientEvent
  | agentText (text : String) : ClientEvent
  | agentAudioTranscript (text : String) : ClientEvent
  | audioChunk (payload : String) : ClientEvent
  | responseAudioDone : ClientEvent
  | responseComplete : ClientEvent
  | responseStarted : ClientEvent
  | speechStarted : ClientEvent
  | speechStopped : ClientEvent
  | apiError (details : String) : ClientEvent
  | sessionPaused : ClientEvent
  | sessionResumed : ClientEvent
  | sessionStopped : ClientEvent
deriving DecidableEq, Repr

/-- Modelled from the spec: the DownstreamConnection (VoiceLiveConnection,
defined in voice_live_web.py, which is outside this source tree) exposes
send, receive and close. We record the frames sent, whether close has
been called, and environment flags for whether its send or close raises
when invoked. -/
structure Conn where
  closed : Bool
  sent : List Frame
  sendRaises : Bool
  closeRaises : Bool
deriving DecidableEq, Repr

/-- State of one WebVoiceLiveSession: session_id, the optional
connection handle, is_active, response_in_progress, and whether the
AudioPlayerAsync sink is still live (it is created in __init__ and
terminated in stop_session). -/
structure Session where
  session_id : String
  connection : Option Conn
  is_active : Bool
  response_in_progress : Bool
  audio_player_live : Bool
deriving DecidableEq, Repr

/-- WebVoiceLiveSession.__init__: connection = None, is_active = False,
response_in_progress = False, audio player created. -/
def Session.init (sid : String) : Session :=
  { session_id := sid
    connection := none
    is_active := false
    response_in_progress := false
    audio_player_live := true }

/-- Environment outcome of one call to start_session: credential
acquisition raises, client.connect raises, the initial session.update
send raises (after connect returned the handle c), or everything
succeeds with handle c. Each failure carries str(e). -/
inductive StartOutcome where
  | credFail (msg : String) : StartOutcome
  | connectFail (msg : String) : StartOutcome
  | sendFail (msg : String) (c : Conn) : StartOutcome
  | success (c : Conn) : StartOutcome
deriving DecidableEq, Repr

/-- Whether the outcome is one of the three failure modes. -/
def StartOutcome.fails : StartOutcome → Bool
  | .credFail _ => true
  | .connectFail _ => true
  | .sendFail _ _ => true
  | .success _ => false

/-- The exception text str(e) carried by a failing outcome. -/
def StartOutcome.errMsg : StartOutcome → String
  | .credFail m => m
  | .connectFail m => m
  | .sendFail m _ => m
  | .success _ => ""

/-- WebVoiceLiveSession.start_session. The whole body is inside one
try/except: on any exception it only prints and emits session_error
with str(e) — it does not reset self.connection. On success it stores
the connection, sends the session.update frame, sets is_active = True,
spawns the listener thread (the Bool result) and emits session_started.
Result: (new state, client events emitted, listener thread spawned). -/
def start_session (o : StartOutcome) (s : Session) :
    Session × List ClientEvent × Bool :=
  match o with
  | .credFail m => (s, [ClientEvent.sessionError m], false)
  | .connectFail m => (s, [ClientEvent.sessionError m], false)
  | .sendFail m c =>
      ({ s with connection := some c }, [ClientEvent.sessionError m], false)
  | .success c =>
      ({ s with
          connection := some ({ c with sent := c.sent ++ [Frame.sessionUpdate] })
          is_active := true },
        [ClientEvent.sessionStarted], true)

/-- WebVoiceLiveSession.send_audio: only if self.connection and
self.is_active, send an input_audio_buffer.append frame; a raising send
is caught and only printed. Result: (new state, frames sent downstream). -/
def send_audio_data (s : Session) (payload : String) : Session × List Frame :=
  match s.connection with
  | some c =>
      if s.is_active then
        if c.sendRaises then (s, [])
        else
          ({ s with connection := some ({ c with sent := c.sent ++ [Frame.inputAudioBufferAppend payload] }) },
            [Frame.inputAudioBufferAppend payload])
      else (s, [])
  | none => (s, [])

/-- WebVoiceLiveSession.trigger_response: only if self.connection and
self.is_active and not self.response_in_progress, send a response.create
frame; otherwise only prints (skip message when a response is in
progress, not-ready message otherwise). A raising send is caught and
printed. Result: (new state, frames sent downstream). -/
def trigger_response (s : Session) : Session × List Frame :=
  match s.connection with
  | some c =>
      if s.is_active && !s.response_in_progress then
        if c.sendRaises then (s, [])
        else
          ({ s with connection := some ({ c with sent := c.sent ++ [Frame.responseCreate] }) },
            [Frame.responseCreate])
      else (s, [])
  | none => (s, [])

/-- WebVoiceLiveSession.stop_session: sets is_active = False and
response_in_progress = False, then (with no try/except) calls
self.connection.close() if the connection is set, then terminates the
audio player. A raising close therefore propagates out of stop_session,
skipping the audio player termination; the connection field is never
reset to None. Result: (new state, exception propagated if any). -/
def stop_session (s : Session) : Session × Option String :=
  let s1 : Session := { s with is_active := false, response_in_progress := false }
  match s1.connection with
  | some c =>
      if c.closeRaises then (s1, some "connection close raised")
      else
        ({ s1 with
            connection := some ({ c with closed := true })
            audio_player_live := false }, none)
  | none => ({ s1 with audio_player_live := false }, none)

/-- WebVoiceLiveSession.pause_session: prints and does nothing (pass). -/
def pause_session (s : Session) : Session := s

/-- WebVoiceLiveSession.resume_session: prints and does nothing (pass). -/
def resume_session (s : Session) : Session := s

/-- Downstream events consumed by _listen_for_responses, keyed by the
event type string; payload fields read with .get and a default. An
absent delta field reads as "" (event.get with default). -/
inductive InEvent where
  | sessionCreated : InEvent
  | inputTranscriptionCompleted (text : String) : InEvent
  | responseTextDone (text : String) : InEvent
  | responseAudioTranscriptDone (text : String) : InEvent
  | responseAudioDelta (delta : String) : InEvent
  | responseAudioDone : InEvent
  | responseDone : InEvent
  | responseCreated : InEvent
  | speechStarted : InEvent
  | speechStopped : InEvent
  | errorEvent (details : String) : InEvent
  | unknown (ty : String) : InEvent
deriving DecidableEq, Repr

/-- What one iteration of the listener loop observes: a parsed frame, an
idle receive (recv returned None, 10 ms sleep), or an exception raised
by recv or by parsing/handling (caught, printed, 100 ms sleep). -/
inductive RecvItem where
  | frame (e : InEvent) : RecvItem
  | idle : RecvItem
  | raiseErr : RecvItem
deriving DecidableEq, Repr

/-- The body of one iteration of _listen_for_responses: dispatch on the
event type. Only response.created and response.done touch session
state (response_in_progress); every branch otherwise just emits the
corresponding client event or logs. An exception in the iteration is
caught: no state change, no event. -/
def relay_step (s : Session) : RecvItem → Session × List ClientEvent
  | .idle => (s, [])
  | .raiseErr => (s, [])
  | .frame e =>
    match e with
    | .sessionCreated => (s, [])
    | .inputTranscriptionCompleted t => (s, [ClientEvent.transcript t])
    | .responseTextDone t => (s, [ClientEvent.agentText t])
    | .responseAudioTranscriptDone t => (s, [ClientEvent.agentAudioTranscript t])
    | .responseAudioDelta d =>
        if d ≠ "" then (s, [ClientEvent.audioChunk d]) else (s, [])
    | .responseAudioDone => (s, [ClientEvent.responseAudioDone])
    | .responseDone =>
        ({ s with response_in_progress := false }, [ClientEvent.responseComplete])
    | .responseCreated =>
        ({ s with response_in_progress := true }, [ClientEvent.responseStarted])
    | .speechStarted => (s, [ClientEvent.speechStarted])
    | .speechStopped => (s, [ClientEvent.speechStopped])
    | .errorEvent d => (s, [ClientEvent.apiError d])
    | .unknown _ => (s, [])

/-- The while condition of _listen_for_responses:
`while self.is_active and self.connection`. -/
def relayGuard (s : Session) : Bool := s.is_active && s.connection.isSome

/-- The listener loop run over a finite trace of received items: each
iteration re-checks the guard, then handles one item; once the guard is
false the remaining items are not processed. Result: (final state,
client events emitted in order). -/
def relay_run : Session → List RecvItem → Session × List ClientEvent
  | s, [] => (s, [])
  | s, i :: rest =>
    if relayGuard s then
      let p := relay_step s i
      let q := relay_run p.1 rest
      (q.1, p.2 ++ q.2)
    else (s, [])

/-- The process-wide active_connections dict, modelled as an association
list from SocketIO connection id to session state. -/
def Registry := List (String × Session)

/-- Dict membership / lookup: active_connections.get(sid). -/
def regLookup : List (String × Session) → String → Option Session
  | [], _ => none
  | (k, v) :: rest, sid => if k = sid then some v else regLookup rest sid

/-- Number of entries registered under a key (a dict has at most one). -/
def regCount (reg : List (String × Session)) (sid : String) : Nat :=
  (reg.filter (fun p => p.1 = sid)).length

/-- In-place mutation of the session object stored under a key, as the
Python handlers do by calling methods on active_connections[sid]. -/
def regUpdate : List (String × Session) → String → Session → List (String × Session)
  | [], _, _ => []
  | (k, v) :: rest, sid, s =>
      if k = sid then (k, s) :: rest else (k, v) :: regUpdate rest sid s

/-- handle_start_session (the start_voice_session SocketIO handler): if
the id is not in active_connections, construct a WebVoiceLiveSession,
register it, and call start_session on it; otherwise do nothing at all.
Result: (new registry, client events, listener thread spawned). -/
def handle_start_session (o : StartOutcome) (reg : List (String × Session))
    (sid : String) : List (String × Session) × List ClientEvent × Bool :=
  match regLookup reg sid with
  | some _ => (reg, [], false)
  | none =>
      let r := start_session o (Session.init sid)
      ((sid, r.1) :: reg, r.2.1, r.2.2)

/-- handle_audio_data (the audio_data SocketIO handler): if a session is
registered for the id and data.get of the audio key is truthy (present
and non-empty), call send_audio on it; otherwise only log. Result:
(new registry, whether send_audio was invoked, frames sent downstream). -/
def handle_audio_data (reg : List (String × Session)) (sid : String)
    (payload : Option String) : List (String × Session) × Bool × List Frame :=
  match regLookup reg sid with
  | some s =>
      match payload with
      | some a =>
          if a ≠ "" then
            let r := send_audio_data s a
            (regUpdate reg sid r.1, true, r.2)
          else (reg, false, [])
      | none => (reg, false, [])
  | none => (reg, false, [])

/-- handle_pause_session: if a session is registered, call pause_session
on it and emit session_paused; otherwise nothing. -/
def handle_pause_session (reg : List (String × Session)) (sid : String) :
    List (String × Session) × List ClientEvent :=
  match regLookup reg sid with
  | some s => (regUpdate reg sid (pause_session s), [ClientEvent.sessionPaused])
  | none => (reg, [])

/-- handle_resume_session: if a session is registered, call
resume_session on it and emit session_resumed; otherwise nothing. -/
def handle_resume_session (reg : List (String × Session)) (sid : String) :
    List (String × Session) × List ClientEvent :=
  match regLookup reg sid with
  | some s => (regUpdate reg sid (resume_session s), [ClientEvent.sessionResumed])
  | none => (reg, [])

/-- The operations that can act on one session's state: the client-driven
calls and one iteration of the listener loop (which runs only while the
loop guard holds). -/
inductive SOp where
  | startOp (o : StartOutcome) : SOp
  | sendAudioOp (payload : String) : SOp
  | triggerOp : SOp
  | pauseOp : SOp
  | resumeOp : SOp
  | stopOp : SOp
  | relayOp (i : RecvItem) : SOp
deriving DecidableEq, Repr

/-- State transition of one operation on the session. -/
def execOp (s : Session) : SOp → Session
  | .startOp o => (start_session o s).1
  | .sendAudioOp p => (send_audio_data s p).1
  | .triggerOp => (trigger_response s).1
  | .pauseOp => pause_session s
  | .resumeOp => resume_session s
  | .stopOp => (stop_session s).1
  | .relayOp i => if relayGuard s then (relay_step s i).1 else s

/-- Run a trace of operations on a session. -/
def runOps (s : Session) (ops : List SOp) : Session := ops.foldl execOp s

/-- The specification-side marker of one operation for the
response-in-progress history: some true for a response.created frame
actually relayed (loop guard held), some false for a relayed
response.done frame or a stop call, none for every other operation. -/
def ripMark (s : Session) : SOp → Option Bool
  | SOp.stopOp => some false
  | SOp.relayOp (RecvItem.frame InEvent.responseCreated) =>
      if relayGuard s then some true else none
  | SOp.relayOp (RecvItem.frame InEvent.responseDone) =>
      if relayGuard s then some false else none
  | _ => none

/-- The response-in-progress markers produced along a trace, in order. -/
def ripMarks : Session → List SOp → List Bool
  | _, [] => []
  | s, op :: rest =>
      match ripMark s op with
      | some b => b :: ripMarks (execOp s op) rest
      | none => ripMarks (execOp s op) rest

/-- Per-operation effect on response_in_progress: a relayed
response.created sets it, a relayed response.done or a stop clears it,
and no other operation changes it. -/
theorem execOp_response_in_progress (s : Session) (op : SOp) :
    (execOp s op).response_in_progress =
      (ripMark s op).getD s.response_in_progress := by
  obtain ⟨sid, conn, act, rip, ap⟩ := s
  cases op with
  | startOp o => cases o <;> rfl
  | sendAudioOp p =>
      cases conn with
      | none => rfl
      | some c =>
          obtain ⟨cl, st, sr, cr⟩ := c
          cases act <;> cases sr <;> rfl
  | triggerOp =>
      cases conn with
      | none => rfl
      | some c =>
          obtain ⟨cl, st, sr, cr⟩ := c
          cases act <;> cases rip <;> cases sr <;> rfl
  | pauseOp => rfl
  | resumeOp => rfl
  | stopOp =>
      cases conn with
      | none => rfl
      | some c =>
          obtain ⟨cl, st, sr, cr⟩ := c
          cases cr <;> rfl
  | relayOp i =>
      cases i with
      | idle => cases act <;> cases conn <;> rfl
      | raiseErr => cases act <;> cases conn <;> rfl
      | frame e =>
          cases act <;> cases conn <;> cases e <;>
            first
              | rfl
              | (dsimp only [execOp, relay_step, ripMark, relayGuard]
                 split <;> (first | rfl | (split <;> rfl)))

/-- getLastD over a cons shifts the default. -/
theorem getLastD_cons_shift (b d : Bool) (l : List Bool) :
    (b :: l).getLastD d = l.getLastD b := by
  cases l <;> simp [List.getLastD]

/-- Claim C1: for every session, response_in_progress is true iff a
downstream response.created frame has been relayed more recently than
any relayed response.done frame or any call to stop_session: along any
trace of operations, the final response_in_progress equals the last
marker in the rip-history (true for a relayed response.created, false
for a relayed response.done or a stop), defaulting to the initial value
when no such event occurred; no other operation changes the flag. -/
theorem responseInProgress_eq_lastRipMark (s : Session) (ops : List SOp) :
    (runOps s ops).response_in_progress =
      (ripMarks s ops).getLastD s.response_in_progress := by
  induction ops generalizing s with
  | nil => rfl
  | cons op rest ih =>
      have hstep : runOps s (op :: rest) = runOps (execOp s op) rest := rfl
      have hm := execOp_response_in_progress s op
      rw [hstep]
      cases hmk : ripMark s op with
      | none =>
          have : ripMarks s (op :: rest) = ripMarks (execOp s op) rest := by
            simp [ripMarks, hmk]
          rw [this, ih]
          rw [hmk] at hm
          simp only [Option.getD] at hm
          rw [hm]
      | some b =>
          have : ripMarks s (op :: rest) = b :: ripMarks (execOp s op) rest := by
            simp [ripMarks, hmk]
          rw [this, getLastD_cons_shift, ih]
          rw [hmk] at hm
          simp only [Option.getD] at hm
          rw [hm]

/-- A plain open connection handle used in concrete scenarios. -/
def connOk : Conn :=
  { closed := false, sent := [], sendRaises := false, closeRaises := false }

/-- An active session holding connOk, no response in flight. -/
def sActive : Session :=
  { session_id := "sid", connection := some connOk, is_active := true,
    response_in_progress := false, audio_player_live := true }

/-- An active session with a response in flight. -/
def sBusy : Session := { sActive with response_in_progress := true }

/-- An inactive session still holding a connection handle. -/
def sIdle : Session := { sActive with is_active := false }

/-- Claim C2: gating violations are pure no-ops. trigger_response while
response_in_progress is true, or while the session is inactive, sends no
downstream frame and leaves the session state (including the connection
and its sent-frame log) unchanged, and send_audio while inactive
likewise; those paths only print a log line and emit nothing to the
client. -/
theorem gating_violations_are_noops (s : Session) (payload : String) :
    (s.response_in_progress = true → trigger_response s = (s, [])) ∧
    (s.is_active = false →
      trigger_response s = (s, []) ∧ send_audio_data s payload = (s, [])) := by
  constructor
  · intro h
    unfold trigger_response
    cases hc : s.connection with
    | none => rfl
    | some c => simp [h]
  · intro h
    refine ⟨?_, ?_⟩
    · unfold trigger_response
      cases hc : s.connection with
      | none => rfl
      | some c => simp [h]
    · unfold send_audio_data
      cases hc : s.connection with
      | none => rfl
      | some c => simp [h]

/-- Witness for C2 at concrete sessions: one busy, one inactive. -/
theorem gating_violations_noops_witness :
    sBusy.response_in_progress = true ∧ trigger_response sBusy = (sBusy, []) ∧
    sIdle.is_active = false ∧ trigger_response sIdle = (sIdle, []) ∧
    send_audio_data sIdle "QUJD" = (sIdle, []) :=
  ⟨rfl, (gating_violations_are_noops sBusy "QUJD").1 rfl,
    rfl, ((gating_violations_are_noops sIdle "QUJD").2 rfl).1,
    ((gating_violations_are_noops sIdle "QUJD").2 rfl).2⟩

/-- Claim C3 counterexample: when the configuration-frame send fails
after the connection was opened, start_session leaves the connection
field holding the still-open handle — it is not released. -/
theorem start_sendFail_retains_connection :
    (start_session (StartOutcome.sendFail "send failed" connOk)
        (Session.init "sid")).1.connection = some connOk ∧
    connOk.closed = false :=
  ⟨rfl, rfl⟩

/-- Claim C3 (amended): every failure during start (credential
acquisition, connection open, configuration-frame send) is caught
inside start_session: the session stays inactive, exactly one
session_error event naming the failure reason is emitted, and no
listener thread is spawned — but the connection field is not released
when the failure happens after the connection was opened. -/
theorem start_failure_inactive_and_session_error (s : Session)
    (o : StartOutcome) (hs : s.is_active = false) (ho : o.fails = true) :
    (start_session o s).1.is_active = false ∧
    (start_session o s).2.1 = [ClientEvent.sessionError o.errMsg] ∧
    (start_session o s).2.2 = false := by
  cases o with
  | credFail m => exact ⟨hs, rfl, rfl⟩
  | connectFail m => exact ⟨hs, rfl, rfl⟩
  | sendFail m c => exact ⟨hs, rfl, rfl⟩
  | success c => exact Bool.noConfusion ho

/-- Witness for C3 at a concrete failing outcome. -/
theorem start_failure_witness :
    (Session.init "sid").is_active = false ∧
    (StartOutcome.credFail "no token").fails = true ∧
    ((start_session (StartOutcome.credFail "no token")
        (Session.init "sid")).1.is_active = false ∧
      (start_session (StartOutcome.credFail "no token")
        (Session.init "sid")).2.1
        = [ClientEvent.sessionError (StartOutcome.credFail "no token").errMsg] ∧
      (start_session (StartOutcome.credFail "no token")
        (Session.init "sid")).2.2 = false) :=
  ⟨rfl, rfl,
    start_failure_inactive_and_session_error (Session.init "sid")
      (StartOutcome.credFail "no token") rfl rfl⟩

/-- Claim C4 counterexample: after a successful start followed by stop,
the session is inactive but the connection field still holds a (closed)
handle — stop_session never resets it to None, so the claimed
"connection is non-null iff active" biconditional fails. -/
theorem connection_not_cleared_after_stop :
    (runOps (Session.init "sid")
        [SOp.startOp (StartOutcome.success connOk), SOp.stopOp]).is_active
      = false ∧
    (runOps (Session.init "sid")
        [SOp.startOp (StartOutcome.success connOk), SOp.stopOp]).connection
      ≠ none := by
  decide

/-- One iteration of the listener loop never changes is_active or the
connection field. -/
theorem relay_step_preserves_active_conn (s : Session) (i : RecvItem) :
    (relay_step s i).1.is_active = s.is_active ∧
    (relay_step s i).1.connection = s.connection := by
  cases i with
  | idle => exact ⟨rfl, rfl⟩
  | raiseErr => exact ⟨rfl, rfl⟩
  | frame e =>
      cases e <;>
        first
          | exact ⟨rfl, rfl⟩
          | (constructor <;> (dsimp only [relay_step]; split <;> rfl))

/-- Claim C4 (amended): the freshly constructed session has no
connection and is inactive (so the biconditional holds there), and
every operation preserves the forward direction "active implies a
connection handle is present"; the reverse direction fails after stop
and after a failed start, since the connection field is never reset to
None. -/
theorem active_implies_connection_invariant (sid : String) (s : Session)
    (op : SOp) (h : s.is_active = true → s.connection.isSome = true) :
    ((Session.init sid).connection = none ∧
      (Session.init sid).is_active = false) ∧
    ((execOp s op).is_active = true → (execOp s op).connection.isSome = true) := by
  refine ⟨⟨rfl, rfl⟩, ?_⟩
  obtain ⟨id0, conn, act, rip, ap⟩ := s
  cases act with
  | true =>
      have hc : conn.isSome = true := h rfl
      rcases conn with _ | ⟨cl, st, sr, cr⟩
      · exact Bool.noConfusion hc
      · cases op with
        | startOp o => cases o <;> exact fun _ => rfl
        | sendAudioOp p => cases sr <;> exact fun _ => rfl
        | triggerOp => cases sr <;> cases rip <;> exact fun _ => rfl
        | pauseOp => exact fun _ => rfl
        | resumeOp => exact fun _ => rfl
        | stopOp => cases cr <;> exact fun hx => Bool.noConfusion hx
        | relayOp i =>
            intro _
            have hp := relay_step_preserves_active_conn
              ⟨id0, some ⟨cl, st, sr, cr⟩, true, rip, ap⟩ i
            show (relay_step
              ⟨id0, some ⟨cl, st, sr, cr⟩, true, rip, ap⟩ i).1.connection.isSome = true
            rw [hp.2]
            rfl
  | false =>
      rcases conn with _ | ⟨cl, st, sr, cr⟩ <;>
        cases op <;>
          first
            | (intro hx; exact Bool.noConfusion hx)
            | (cases cr <;> (intro hx; exact Bool.noConfusion hx))
            | (rename_i o
               cases o <;>
                 first
                   | (intro hx; exact Bool.noConfusion hx)
                   | exact fun _ => rfl)

/-- Witness for C4: the forward invariant applied to the concrete active
session and a stop operation. -/
theorem active_implies_connection_witness :
    (sActive.is_active = true → sActive.connection.isSome = true) ∧
    (((Session.init "sid").connection = none ∧
        (Session.init "sid").is_active = false) ∧
      ((execOp sActive SOp.stopOp).is_active = true →
        (execOp sActive SOp.stopOp).connection.isSome = true)) :=
  ⟨fun _ => rfl,
    active_implies_connection_invariant "sid" sActive SOp.stopOp (fun _ => rfl)⟩

/-- Whether closing the session's connection (if it has one) would
succeed rather than raise. -/
def connCloseOk (s : Session) : Bool :=
  match s.connection with
  | some c => !c.closeRaises
  | none => true

/-- Claim C5 (amended): stop_session always clears is_active and
response_in_progress (it sets both before touching the connection),
and when the connection's close does not raise it is total and
idempotent: the first call propagates no exception, and a second call
on the already-stopped session propagates none either and leaves the
state exactly as the first call left it; stop_session itself emits no
client event. However, an exception from connection.close() is NOT
swallowed: stop_session has no handler around it. -/
theorem stop_clears_flags_and_idempotent (s : Session) :
    ((stop_session s).1.is_active = false ∧
      (stop_session s).1.response_in_progress = false) ∧
    (connCloseOk s = true →
      (stop_session s).2 = none ∧
      (stop_session (stop_session s).1).2 = none ∧
      (stop_session (stop_session s).1).1 = (stop_session s).1) := by
  obtain ⟨id0, conn, act, rip, ap⟩ := s
  rcases conn with _ | ⟨cl, st, sr, cr⟩
  · exact ⟨⟨rfl, rfl⟩, fun _ => ⟨rfl, rfl, rfl⟩⟩
  · cases cr
    · exact ⟨⟨rfl, rfl⟩, fun _ => ⟨rfl, rfl, rfl⟩⟩
    · exact ⟨⟨rfl, rfl⟩, fun hx => Bool.noConfusion hx⟩

/-- Witness for C5 at the concrete active session. -/
theorem stop_idempotent_witness :
    ((stop_session sActive).1.is_active = false ∧
      (stop_session sActive).1.response_in_progress = false) ∧
    connCloseOk sActive = true ∧
    ((stop_session sActive).2 = none ∧
      (stop_session (stop_session sActive).1).2 = none ∧
      (stop_session (stop_session sActive).1).1 = (stop_session sActive).1) :=
  ⟨(stop_clears_flags_and_idempotent sActive).1, rfl,
    (stop_clears_flags_and_idempotent sActive).2 rfl⟩

/-- A connection whose close call raises. -/
def connBadClose : Conn :=
  { closed := false, sent := [], sendRaises := false, closeRaises := true }

/-- A running session holding connBadClose. -/
def sBadClose : Session :=
  { session_id := "sid", connection := some connBadClose, is_active := true,
    response_in_progress := true, audio_player_live := true }

/-- Claim C5 counterexample: stop_session has no try/except around
connection.close(), so a raising close propagates out of stop instead
of being logged and swallowed (both flags are still cleared, since they
are written before close is called). -/
theorem stop_propagates_close_error :
    (stop_session sBadClose).2 ≠ none ∧
    (stop_session sBadClose).1.is_active = false := by decide

/-- A registry with no entry for a key looks the key up as absent. -/
theorem regLookup_eq_none_of_count_zero (reg : List (String × Session))
    (sid : String) (h : regCount reg sid = 0) : regLookup reg sid = none := by
  induction reg with
  | nil => rfl
  | cons p rest ih =>
      obtain ⟨k, v⟩ := p
      by_cases hk : k = sid
      · exfalso
        simp [regCount, List.filter_cons, hk] at h
      · simp only [regLookup, if_neg hk]
        exact ih (by simpa [regCount, List.filter_cons, hk] using h)

/-- Claim C6 (amended): two start_voice_session requests for a key with
no existing entry leave exactly one session registered under the key;
the second request finds the entry, performs no creation, no
registration and no start (no events, no listener spawn, registry
unchanged); at most one listener thread is spawned in total — exactly
one iff the first start succeeded. -/
theorem double_start_single_registration (reg : List (String × Session))
    (sid : String) (o o2 : StartOutcome) (h : regCount reg sid = 0) :
    regCount (handle_start_session o2
        (handle_start_session o reg sid).1 sid).1 sid = 1 ∧
    (handle_start_session o2 (handle_start_session o reg sid).1 sid).1
      = (handle_start_session o reg sid).1 ∧
    (handle_start_session o2 (handle_start_session o reg sid).1 sid).2.1 = [] ∧
    (handle_start_session o2 (handle_start_session o reg sid).1 sid).2.2 = false ∧
    ((handle_start_session o reg sid).2.2 = true ↔ o.fails = false) := by
  have hl := regLookup_eq_none_of_count_zero reg sid h
  have h1 : handle_start_session o reg sid
      = ((sid, (start_session o (Session.init sid)).1) :: reg,
          (start_session o (Session.init sid)).2.1,
          (start_session o (Session.init sid)).2.2) := by
    simp [handle_start_session, hl]
  have h2 : regLookup ((sid, (start_session o (Session.init sid)).1) :: reg) sid
      = some (start_session o (Session.init sid)).1 := by
    simp [regLookup]
  refine ⟨?_, ?_, ?_, ?_, ?_⟩
  · rw [h1]
    simp only [handle_start_session, h2]
    have hc : regCount ((sid, (start_session o (Session.init sid)).1) :: reg) sid
        = regCount reg sid + 1 := by
      simp [regCount, List.filter_cons]
    rw [hc, h]
  · rw [h1]
    simp only [handle_start_session, h2]
  · rw [h1]
    simp only [handle_start_session, h2]
  · rw [h1]
    simp only [handle_start_session, h2]
  · rw [h1]
    cases o <;> simp [start_session, StartOutcome.fails]

/-- Witness for C6: two successful-environment start requests on an
empty registry. -/
theorem double_start_witness :
    regCount ([] : List (String × Session)) "sid" = 0 ∧
    regCount (handle_start_session (StartOutcome.success connOk)
        (handle_start_session (StartOutcome.success connOk) [] "sid").1
        "sid").1 "sid" = 1 ∧
    (handle_start_session (StartOutcome.success connOk)
        (handle_start_session (StartOutcome.success connOk) [] "sid").1
        "sid").2.2 = false ∧
    ((handle_start_session (StartOutcome.success connOk) [] "sid").2.2 = true
      ↔ (StartOutcome.success connOk).fails = false) :=
  ⟨rfl,
    (double_start_single_registration [] "sid" (StartOutcome.success connOk)
      (StartOutcome.success connOk) rfl).1,
    (double_start_single_registration [] "sid" (StartOutcome.success connOk)
      (StartOutcome.success connOk) rfl).2.2.2.1,
    (double_start_single_registration [] "sid" (StartOutcome.success connOk)
      (StartOutcome.success connOk) rfl).2.2.2.2⟩

/-- Claim C6 counterexample: when the first start fails (for example
credential acquisition raises), two start requests leave one session
registered but zero listener threads spawned, not exactly one. -/
theorem double_start_failed_spawns_no_relay :
    regCount (handle_start_session (StartOutcome.credFail "no token")
        (handle_start_session (StartOutcome.credFail "no token") [] "sid").1
        "sid").1 "sid" = 1 ∧
    (handle_start_session (StartOutcome.credFail "no token") [] "sid").2.2
      = false ∧
    (handle_start_session (StartOutcome.credFail "no token")
        (handle_start_session (StartOutcome.credFail "no token") [] "sid").1
        "sid").2.2 = false := by
  decide

/-- Claim C7: a received response.audio.delta frame with a non-empty
payload makes the listener publish exactly one audio_chunk event
carrying that same payload, placed before the events of every later
frame; with an empty (or absent, read as empty) payload nothing is
published for the frame. -/
theorem audio_delta_relay (s : Session) (d : String) (rest : List RecvItem)
    (hg : relayGuard s = true) :
    (d ≠ "" →
      (relay_run s (RecvItem.frame (InEvent.responseAudioDelta d) :: rest)).2
        = ClientEvent.audioChunk d :: (relay_run s rest).2) ∧
    (d = "" →
      (relay_run s (RecvItem.frame (InEvent.responseAudioDelta d) :: rest)).2
        = (relay_run s rest).2) := by
  constructor
  · intro hd
    simp [relay_run, hg, relay_step, hd]
  · intro hd
    subst hd
    simp [relay_run, hg, relay_step]

/-- Witness for C7: the concrete scenario delta QUJD then response.done
publishes audio_chunk QUJD before response_complete. -/
theorem audio_delta_relay_witness :
    relayGuard sActive = true ∧ ("QUJD" : String) ≠ "" ∧
    (relay_run sActive [RecvItem.frame (InEvent.responseAudioDelta "QUJD"),
        RecvItem.frame InEvent.responseDone]).2
      = [ClientEvent.audioChunk "QUJD", ClientEvent.responseComplete] := by
  refine ⟨rfl, by decide, ?_⟩
  have h := (audio_delta_relay sActive "QUJD"
      [RecvItem.frame InEvent.responseDone] rfl).1 (by decide)
  rw [h]
  decide

/-- Claim C8: a raising receive or parse in one listener iteration is
caught: it changes no state, publishes nothing, and the loop goes on to
the next iteration; while the guard holds the loop always continues
past any single item, the guard is preserved by every handled item, and
the loop stops (ignoring the rest of the trace) exactly when is_active
has been cleared or the connection field is unset. -/
theorem relay_error_resilience (s : Session) (i : RecvItem)
    (items : List RecvItem) :
    (relay_step s RecvItem.raiseErr = (s, [])) ∧
    (relayGuard s = true → relayGuard (relay_step s i).1 = true) ∧
    (relayGuard s = true →
      relay_run s (i :: items)
        = ((relay_run (relay_step s i).1 items).1,
            (relay_step s i).2 ++ (relay_run (relay_step s i).1 items).2)) ∧
    (relayGuard s = false → relay_run s (i :: items) = (s, [])) := by
  refine ⟨rfl, ?_, ?_, ?_⟩
  · intro hg
    have hp := relay_step_preserves_active_conn s i
    unfold relayGuard at hg ⊢
    rw [hp.1, hp.2]
    exact hg
  · intro hg
    simp [relay_run, hg]
  · intro hg
    simp [relay_run, hg]

/-- Witness for C8: the guard facts applied to a concrete running
session and a stopped one. -/
theorem relay_error_resilience_witness :
    relayGuard sActive = true ∧
    relayGuard (relay_step sActive RecvItem.raiseErr).1 = true ∧
    relayGuard sIdle = false ∧
    relay_run sIdle [RecvItem.raiseErr] = (sIdle, []) :=
  ⟨rfl,
    (relay_error_resilience sActive RecvItem.raiseErr []).2.1 rfl,
    rfl,
    (relay_error_resilience sIdle RecvItem.raiseErr []).2.2.2 rfl⟩

/-- Updating a key of the registry with the very session stored there
changes nothing. -/
theorem regUpdate_self (reg : List (String × Session)) (sid : String)
    (v : Session) (h : regLookup reg sid = some v) :
    regUpdate reg sid v = reg := by
  induction reg with
  | nil => rfl
  | cons p rest ih =>
      obtain ⟨k, w⟩ := p
      by_cases hk : k = sid
      · simp only [regLookup, if_pos hk] at h
        obtain rfl := Option.some.inj h
        simp only [regUpdate, if_pos hk]
      · simp only [regLookup, if_neg hk] at h
        simp only [regUpdate, if_neg hk, ih h]

/-- Claim C9: pause_session and resume_session change none of the
fields any other operation reads — is_active, response_in_progress, the
connection (so nothing is closed and no frame is sent) and the audio
sink — and the pause/resume handlers leave the registry exactly as it
was. -/
theorem pause_resume_preserve_state (s : Session)
    (reg : List (String × Session)) (sid : String) :
    ((pause_session s).is_active = s.is_active ∧
      (pause_session s).response_in_progress = s.response_in_progress ∧
      (pause_session s).connection = s.connection ∧
      (pause_session s).audio_player_live = s.audio_player_live) ∧
    ((resume_session s).is_active = s.is_active ∧
      (resume_session s).response_in_progress = s.response_in_progress ∧
      (resume_session s).connection = s.connection ∧
      (resume_session s).audio_player_live = s.audio_player_live) ∧
    (handle_pause_session reg sid).1 = reg ∧
    (handle_resume_session reg sid).1 = reg := by
  refine ⟨⟨rfl, rfl, rfl, rfl⟩, ⟨rfl, rfl, rfl, rfl⟩, ?_, ?_⟩
  · unfold handle_pause_session
    cases hl : regLookup reg sid with
    | none => rfl
    | some v => simpa [pause_session] using regUpdate_self reg sid v hl
  · unfold handle_resume_session
    cases hl : regLookup reg sid with
    | none => rfl
    | some v => simpa [resume_session] using regUpdate_self reg sid v hl

/-- Claim C10: an audio_data event whose payload lacks the audio field,
or carries an empty one, never reaches send_audio: the handler returns
with no downstream frame and the registry (hence every session,
registered and active or not) unchanged. -/
theorem empty_audio_data_not_forwarded (reg : List (String × Session))
    (sid : String) (payload : Option String)
    (h : payload = none ∨ payload = some "") :
    handle_audio_data reg sid payload = (reg, false, []) := by
  rcases h with rfl | rfl
  · unfold handle_audio_data
    cases regLookup reg sid <;> rfl
  · unfold handle_audio_data
    cases regLookup reg sid with
    | none => rfl
    | some s => simp

/-- A registry holding one registered, active session. -/
def regW : List (String × Session) := [("sid", sActive)]

/-- Witness for C10: an empty audio payload against a registry that
does hold a registered active session. -/
theorem empty_audio_data_witness :
    regLookup regW "sid" = some sActive ∧ sActive.is_active = true ∧
    handle_audio_data regW "sid" (some "") = (regW, false, []) :=
  ⟨by decide, rfl,
    empty_audio_data_not_forwarded regW "sid" (some "") (Or.inr rfl)⟩
